import Mathlib

/-!
Verification of the managerui event decoder and dispatch loop (src/main.c).

The program is modelled by a shallow embedding:

* a kernel `struct input_event` becomes `input_event` (the timestamp is
  ignored by the program and therefore omitted);
* one call of `read(2)` is summarised by a `ReadResult`: the value the call
  returned, the `errno` in effect after the call, and the contents of the
  caller's buffer after the call;
* `ev_read` is translated branch for branch from the C source; the returned
  `Bool` records whether `ev_read` called `close(fd)` on its descriptor;
* the `while` loop of `main` is run over a finite script of read outcomes
  (`runLoop`), and `main` itself over a `MainConfig` describing the argument
  count, the result of `open(2)`, the result of `daemon(0,0)` and the script.
-/

namespace Managerui

/-! ### Generic facts about `&&&` and `|||` on `Nat` -/

/-- A number below `2 ^ k` has bit `k` clear, so masking with `2 ^ k` gives 0. -/
lemma and_two_pow_eq_zero {c k : Nat} (h : c < 2 ^ k) : c &&& 2 ^ k = 0 := by
  apply Nat.eq_of_testBit_eq
  intro i
  simp only [Nat.testBit_and, Nat.testBit_two_pow, Nat.zero_testBit]
  rcases eq_or_ne k i with rfl | hki
  · simp [Nat.testBit_lt_two_pow h]
  · simp [hki]

/-- Setting bit `j` in a number below `2 ^ k` leaves bit `k` clear when `j ≠ k`. -/
lemma or_two_pow_and_two_pow_ne {c j k : Nat} (hc : c < 2 ^ k) (hjk : j ≠ k) :
    (c ||| 2 ^ j) &&& 2 ^ k = 0 := by
  apply Nat.eq_of_testBit_eq
  intro i
  simp only [Nat.testBit_and, Nat.testBit_or, Nat.testBit_two_pow, Nat.zero_testBit]
  rcases eq_or_ne k i with rfl | hki
  · simp [Nat.testBit_lt_two_pow hc, hjk]
  · simp [hki]

/-- Masking with `2 ^ k` after setting bit `k` recovers exactly `2 ^ k`. -/
lemma or_two_pow_and_two_pow_self (c k : Nat) : (c ||| 2 ^ k) &&& 2 ^ k = 2 ^ k := by
  apply Nat.eq_of_testBit_eq
  intro i
  simp only [Nat.testBit_and, Nat.testBit_or, Nat.testBit_two_pow]
  rcases eq_or_ne k i with rfl | hki
  · simp
  · simp [hki]

/-- Setting a bit at or above position `n` does not disturb the low `n` bits. -/
lemma or_two_pow_and_mask {c n j : Nat} (hc : c < 2 ^ n) (hj : n ≤ j) :
    (c ||| 2 ^ j) &&& (2 ^ n - 1) = c := by
  apply Nat.eq_of_testBit_eq
  intro i
  simp only [Nat.testBit_and, Nat.testBit_or, Nat.testBit_two_pow,
    Nat.testBit_two_pow_sub_one]
  rcases Nat.lt_or_ge i n with hin | hin
  · have hji : j ≠ i := by omega
    simp [hin, hji]
  · have hci : c.testBit i = false :=
      Nat.testBit_lt_two_pow (Nat.lt_of_lt_of_le hc (Nat.pow_le_pow_right (by norm_num) hin))
    have hni : ¬ i < n := Nat.not_lt.mpr hin
    simp [hci, hni]

/-- Masking a number below `2 ^ n` with the low-`n`-bits mask is the identity. -/
lemma and_mask_of_lt {c n : Nat} (hc : c < 2 ^ n) : c &&& (2 ^ n - 1) = c :=
  Nat.and_pow_two_sub_one_of_lt_two_pow hc

/-! ### Constants from `linux/input.h`, `errno.h` and the source -/

/-- `EV_KEY` event class from `linux/input.h`. -/
def EV_KEY : Nat := 0x01

/-- Flag: an error occurred; the low 16 bits are an error tag. -/
def EV_ERROR : Nat := 0x00010000

/-- Flag: the key was released. -/
def EV_UP : Nat := 0x00020000

/-- Flag: the key is held (key-repeat). -/
def EV_HOLD : Nat := 0x00040000

/-- Error tag: transient, the read would block. -/
def EV_EBLOCK : Nat := 0x0001

/-- Error tag: unrecoverable file error. -/
def EV_EFILE : Nat := 0x0002

/-- Macro `EV_HASFLAG(code, flag)`: nonzero iff the flag is set. -/
def EV_HASFLAG (code flag : Nat) : Nat := code &&& flag

/-- Macro `EV_GETCODE(code)`: the low 16 bits. -/
def EV_GETCODE (code : Nat) : Nat := code &&& 0x0000ffff

/-- Macro `EV_GETERROR(code)`: same as `EV_GETCODE`. -/
def EV_GETERROR (code : Nat) : Nat := EV_GETCODE code

/-- Macro `EV_FAIL(code)`: nonzero iff `EV_ERROR` is set. -/
def EV_FAIL (code : Nat) : Nat := EV_HASFLAG code EV_ERROR

/-- Linux errno values used by the source. On Linux `EWOULDBLOCK = EAGAIN`. -/
def EINTR : Nat := 4

/-- Linux `EAGAIN`. -/
def EAGAIN : Nat := 11

/-- Linux `EWOULDBLOCK`, identical to `EAGAIN`. -/
def EWOULDBLOCK : Nat := EAGAIN

/-- `sizeof(struct input_event)` on 64-bit Linux: 16-byte timestamp plus
    2-byte type, 2-byte code, 4-byte value. -/
def sizeof_input_event : Int := 24

/-! ### Data model -/

/-- The interpreted fields of a kernel `struct input_event`: `type` and `code`
    are unsigned 16-bit, `value` is signed 32-bit. The timestamp is never read
    by the program and is omitted. -/
structure input_event where
  type : Nat
  code : Nat
  value : Int
deriving DecidableEq

/-- Summary of one `read(fd, &ev, sizeof(ev))` call: the return value of
    `read` (byte count, or negative on error), the `errno` in effect after the
    call, and the buffer contents after the call. -/
structure ReadResult where
  retval : Int
  errno : Nat
  buf : input_event
deriving DecidableEq

/-- `ev_read` from the source, translated branch for branch. The first
    component is the `uint32_t` the C function returns; the second records
    whether the function called `close(fd)`. -/
def ev_read (r : ReadResult) : Nat × Bool :=
  if r.retval < 1 then
    if r.errno = EINTR ∨ r.errno = EAGAIN ∨ r.errno = EWOULDBLOCK then
      (EV_EBLOCK ||| EV_ERROR, false)
    else
      (EV_EFILE ||| EV_ERROR, true)
  else
    if r.buf.type = EV_KEY then
      if r.buf.value = 1 then
        (r.buf.code, false)
      else if r.buf.value = 2 then
        (r.buf.code ||| EV_HOLD, false)
      else
        (r.buf.code ||| EV_UP, false)
    else
      (EV_EBLOCK ||| EV_ERROR, false)

/-- The five statuses of a `DecodedEvent`. -/
inductive Status where
  | Pressed
  | Held
  | Released
  | WouldBlock
  | Fatal
deriving DecidableEq

/-- Reading the bit-packed encoding back, with the macros and in the priority
    order `main` uses: `EV_FAIL` first (then `EV_GETERROR` distinguishes
    blocking from fatal), then `EV_UP`, then `EV_HOLD`, else pressed. -/
def statusOf (v : Nat) : Status :=
  if EV_FAIL v ≠ 0 then
    if EV_GETERROR v = EV_EBLOCK then Status.WouldBlock else Status.Fatal
  else if EV_HASFLAG v EV_UP ≠ 0 then Status.Released
  else if EV_HASFLAG v EV_HOLD ≠ 0 then Status.Held
  else Status.Pressed

/-! ### The dispatch loop of `main` -/

/-- The `switch (EV_GETCODE(ev))` block of `main`: the `system(...)` calls
    performed for one decoded (non-error) event value. -/
def dispatch (ev : Nat) : List String :=
  if EV_GETCODE ev = 225 then
    if EV_HASFLAG ev EV_UP ≠ 0 then ["setbacklight %+10"] else []
  else if EV_GETCODE ev = 224 then
    if EV_HASFLAG ev EV_UP ≠ 0 then ["setbacklight %-10"] else []
  else []

/-- The two states of the dispatch loop. -/
inductive LoopState where
  | Running
  | Terminated
deriving DecidableEq

/-- One iteration of the `while (1)` loop body, from state `Running`, given
    this iteration's read outcome: the commands invoked and the next state.
    `continue` and falling through the `switch` both stay `Running`; `break`
    is `Terminated`. -/
def loopStep (r : ReadResult) : List String × LoopState :=
  let v := ev_read r
  if EV_FAIL v.1 ≠ 0 then
    if EV_GETERROR v.1 = EV_EBLOCK then ([], LoopState.Running)
    else ([], LoopState.Terminated)
  else (dispatch v.1, LoopState.Running)

/-- Accumulated effects of running the loop over a finite script of read
    outcomes: all commands invoked, the number of `close(fd)` calls made
    inside `ev_read`, and whether the loop hit `break`. -/
structure LoopResult where
  commands : List String
  closes : Nat
  terminated : Bool
deriving DecidableEq

/-- The `while (1)` loop of `main`, run over a finite script; if the script is
    exhausted the loop is still running (`terminated = false`). -/
def runLoop : List ReadResult → LoopResult
  | [] => ⟨[], 0, false⟩
  | r :: rs =>
    let v := ev_read r
    let c : Nat := if v.2 then 1 else 0
    if EV_FAIL v.1 ≠ 0 then
      if EV_GETERROR v.1 = EV_EBLOCK then
        let rest := runLoop rs
        ⟨rest.commands, c + rest.closes, rest.terminated⟩
      else ⟨[], c, true⟩
    else
      let rest := runLoop rs
      ⟨dispatch v.1 ++ rest.commands, c + rest.closes, rest.terminated⟩

/-- `ev_open` merely forwards the result of `open(path, O_RDONLY)`. -/
def ev_open (osOpenResult : Int) : Int := osOpenResult

/-- `EXIT_SUCCESS`. -/
def EXIT_SUCCESS : Nat := 0

/-- `EXIT_FAILURE`. -/
def EXIT_FAILURE : Nat := 1

/-- The environment `main` runs in: the argument count, what `open(2)` would
    return for `argv[1]`, what `daemon(0, 0)` returns, and the script of read
    outcomes the device delivers. -/
structure MainConfig where
  argc : Nat
  openRet : Int
  daemonRet : Int
  script : List ReadResult
deriving DecidableEq

/-- Observable outcome of a terminating run of `main`: the exit status, the
    lines printed to standard error, whether a device open was attempted, the
    commands invoked, and the number of `close` calls on the device
    descriptor. -/
structure MainOutcome where
  exitCode : Nat
  stderr : List String
  openAttempted : Bool
  commands : List String
  closes : Nat
deriving DecidableEq

/-- `main` from the source. `none` means the loop was still running when the
    script ran out (the real process would stay blocked in `read`). The final
    `closes + 1` is the `ev_close(keygrabber)` after the loop. -/
def main (cfg : MainConfig) : Option MainOutcome :=
  if cfg.argc < 2 then
    some ⟨EXIT_FAILURE, ["usage: managerui /dev/input/eventX"], false, [], 0⟩
  else if ev_open cfg.openRet < 0 then
    some ⟨EXIT_FAILURE, ["Cannot open event file"], true, [], 0⟩
  else if cfg.daemonRet ≠ 0 then
    some ⟨EXIT_FAILURE, ["Cannot fork into background"], true, [], 0⟩
  else
    let res := runLoop cfg.script
    if res.terminated then
      some ⟨EXIT_SUCCESS, [], true, res.commands, res.closes + 1⟩
    else
      none

/-! ### Facts about the macros on the values `ev_read` produces

A key code read from the kernel is an unsigned 16-bit integer, hence below
65536; the lemmas carry that bound explicitly. -/

lemma EV_FAIL_of_lt {c : Nat} (h : c < 65536) : EV_FAIL c = 0 := by
  have h16 : c < 2 ^ 16 := by omega
  simpa [EV_FAIL, EV_HASFLAG, EV_ERROR] using and_two_pow_eq_zero h16

lemma EV_FAIL_up {c : Nat} (h : c < 65536) : EV_FAIL (c ||| EV_UP) = 0 := by
  have h16 : c < 2 ^ 16 := by omega
  simpa [EV_FAIL, EV_HASFLAG, EV_ERROR, EV_UP] using
    or_two_pow_and_two_pow_ne (c := c) (j := 17) (k := 16) h16 (by omega)

lemma EV_FAIL_hold {c : Nat} (h : c < 65536) : EV_FAIL (c ||| EV_HOLD) = 0 := by
  have h16 : c < 2 ^ 16 := by omega
  simpa [EV_FAIL, EV_HASFLAG, EV_ERROR, EV_HOLD] using
    or_two_pow_and_two_pow_ne (c := c) (j := 18) (k := 16) h16 (by omega)

lemma EV_GETCODE_of_lt {c : Nat} (h : c < 65536) : EV_GETCODE c = c := by
  have h16 : c < 2 ^ 16 := by omega
  simpa [EV_GETCODE] using and_mask_of_lt h16

lemma EV_GETCODE_up {c : Nat} (h : c < 65536) : EV_GETCODE (c ||| EV_UP) = c := by
  have h16 : c < 2 ^ 16 := by omega
  simpa [EV_GETCODE, EV_UP] using
    or_two_pow_and_mask (c := c) (n := 16) (j := 17) h16 (by omega)

lemma EV_GETCODE_hold {c : Nat} (h : c < 65536) : EV_GETCODE (c ||| EV_HOLD) = c := by
  have h16 : c < 2 ^ 16 := by omega
  simpa [EV_GETCODE, EV_HOLD] using
    or_two_pow_and_mask (c := c) (n := 16) (j := 18) h16 (by omega)

/-- `EV_GETCODE` always lands in the unsigned 16-bit range. -/
lemma EV_GETCODE_lt (v : Nat) : EV_GETCODE v < 65536 := by
  show v &&& 0x0000ffff < 65536
  have h : v &&& 2 ^ 16 - 1 = v % 2 ^ 16 := Nat.and_pow_two_sub_one_eq_mod v 16
  norm_num at h
  rw [h]
  exact Nat.mod_lt _ (by norm_num)

lemma hasflag_up_self (c : Nat) : EV_HASFLAG (c ||| EV_UP) EV_UP = EV_UP := by
  simpa [EV_HASFLAG, EV_UP] using or_two_pow_and_two_pow_self c 17

lemma hasflag_hold_self (c : Nat) : EV_HASFLAG (c ||| EV_HOLD) EV_HOLD = EV_HOLD := by
  simpa [EV_HASFLAG, EV_HOLD] using or_two_pow_and_two_pow_self c 18

lemma hasflag_up_of_lt {c : Nat} (h : c < 65536) : EV_HASFLAG c EV_UP = 0 := by
  have h17 : c < 2 ^ 17 := by omega
  simpa [EV_HASFLAG, EV_UP] using and_two_pow_eq_zero h17

lemma hasflag_hold_of_lt {c : Nat} (h : c < 65536) : EV_HASFLAG c EV_HOLD = 0 := by
  have h18 : c < 2 ^ 18 := by omega
  simpa [EV_HASFLAG, EV_HOLD] using and_two_pow_eq_zero h18

lemma hasflag_up_of_hold {c : Nat} (h : c < 65536) : EV_HASFLAG (c ||| EV_HOLD) EV_UP = 0 := by
  have h17 : c < 2 ^ 17 := by omega
  simpa [EV_HASFLAG, EV_UP, EV_HOLD] using
    or_two_pow_and_two_pow_ne (c := c) (j := 18) (k := 17) h17 (by omega)

lemma hasflag_hold_of_up {c : Nat} (h : c < 65536) : EV_HASFLAG (c ||| EV_UP) EV_HOLD = 0 := by
  have h18 : c < 2 ^ 18 := by omega
  simpa [EV_HASFLAG, EV_HOLD, EV_UP] using
    or_two_pow_and_two_pow_ne (c := c) (j := 17) (k := 18) h18 (by omega)

/-! ### `statusOf` on each value shape `ev_read` can return -/

lemma statusOf_pressed {c : Nat} (h : c < 65536) : statusOf c = Status.Pressed := by
  simp [statusOf, EV_FAIL_of_lt h, hasflag_up_of_lt h, hasflag_hold_of_lt h]

lemma EV_UP_ne : EV_UP ≠ 0 := by decide

lemma EV_HOLD_ne : EV_HOLD ≠ 0 := by decide

lemma statusOf_held {c : Nat} (h : c < 65536) : statusOf (c ||| EV_HOLD) = Status.Held := by
  simp [statusOf, EV_FAIL_hold h, hasflag_up_of_hold h, hasflag_hold_self c, EV_HOLD_ne]

lemma statusOf_released {c : Nat} (h : c < 65536) : statusOf (c ||| EV_UP) = Status.Released := by
  simp [statusOf, EV_FAIL_up h, hasflag_up_self c, EV_UP_ne]

lemma statusOf_eblock : statusOf (EV_EBLOCK ||| EV_ERROR) = Status.WouldBlock := by decide

lemma statusOf_efile : statusOf (EV_EFILE ||| EV_ERROR) = Status.Fatal := by decide

lemma EV_FAIL_eblock_ne : EV_FAIL (EV_EBLOCK ||| EV_ERROR) ≠ 0 := by decide

lemma EV_FAIL_efile_ne : EV_FAIL (EV_EFILE ||| EV_ERROR) ≠ 0 := by decide

lemma EV_GETERROR_eblock : EV_GETERROR (EV_EBLOCK ||| EV_ERROR) = EV_EBLOCK := by decide

lemma EV_GETERROR_efile : EV_GETERROR (EV_EFILE ||| EV_ERROR) = EV_EFILE := by decide

lemma EV_GETERROR_efile_ne : EV_GETERROR (EV_EFILE ||| EV_ERROR) ≠ EV_EBLOCK := by decide

/-! ### Shape lemmas for `ev_read` -/

lemma ev_read_block {r : ReadResult} (hn : r.retval < 1)
    (he : r.errno = EINTR ∨ r.errno = EAGAIN ∨ r.errno = EWOULDBLOCK) :
    ev_read r = (EV_EBLOCK ||| EV_ERROR, false) := by
  simp [ev_read, hn, he]

lemma ev_read_fatal {r : ReadResult} (hn : r.retval < 1)
    (he : ¬ (r.errno = EINTR ∨ r.errno = EAGAIN ∨ r.errno = EWOULDBLOCK)) :
    ev_read r = (EV_EFILE ||| EV_ERROR, true) := by
  simp [ev_read, hn, he]

lemma ev_read_pressed {r : ReadResult} (hn : ¬ r.retval < 1) (ht : r.buf.type = EV_KEY)
    (hv : r.buf.value = 1) : ev_read r = (r.buf.code, false) := by
  simp [ev_read, hn, ht, hv]

lemma ev_read_held {r : ReadResult} (hn : ¬ r.retval < 1) (ht : r.buf.type = EV_KEY)
    (hv : r.buf.value = 2) : ev_read r = (r.buf.code ||| EV_HOLD, false) := by
  simp [ev_read, hn, ht, hv]

lemma ev_read_released {r : ReadResult} (hn : ¬ r.retval < 1) (ht : r.buf.type = EV_KEY)
    (h1 : r.buf.value ≠ 1) (h2 : r.buf.value ≠ 2) :
    ev_read r = (r.buf.code ||| EV_UP, false) := by
  simp [ev_read, hn, ht, h1, h2]

lemma ev_read_nonkey {r : ReadResult} (hn : ¬ r.retval < 1) (ht : r.buf.type ≠ EV_KEY) :
    ev_read r = (EV_EBLOCK ||| EV_ERROR, false) := by
  simp [ev_read, hn, ht]

/-- `ev_read` returns one of exactly five value shapes. -/
lemma ev_read_cases (r : ReadResult) :
    ev_read r = (EV_EBLOCK ||| EV_ERROR, false) ∨
    ev_read r = (EV_EFILE ||| EV_ERROR, true) ∨
    ev_read r = (r.buf.code, false) ∨
    ev_read r = (r.buf.code ||| EV_HOLD, false) ∨
    ev_read r = (r.buf.code ||| EV_UP, false) := by
  unfold ev_read
  split_ifs <;> simp

/-! ### Facts about `dispatch` -/

lemma dispatch_no_up {v : Nat} (h : EV_HASFLAG v EV_UP = 0) : dispatch v = [] := by
  simp [dispatch, h]

lemma dispatch_up_224 {v : Nat} (h224 : EV_GETCODE v = 224)
    (hup : EV_HASFLAG v EV_UP ≠ 0) : dispatch v = ["setbacklight %-10"] := by
  simp [dispatch, h224, hup]

lemma dispatch_up_225 {v : Nat} (h225 : EV_GETCODE v = 225)
    (hup : EV_HASFLAG v EV_UP ≠ 0) : dispatch v = ["setbacklight %+10"] := by
  simp [dispatch, h225, hup]

lemma dispatch_other {v : Nat} (h1 : EV_GETCODE v ≠ 224) (h2 : EV_GETCODE v ≠ 225) :
    dispatch v = [] := by
  simp [dispatch, h1, h2]

/-! ### Claim theorems -/

/-- Claim C2: for every raw key-class record read in full, value 1 decodes to
    `Pressed` with the record's 16-bit code, value 2 to `Held` with the same
    code, and value 0 to `Released` with the same code. -/
theorem ev_read_key_values (r : ReadResult) (hr : r.retval = sizeof_input_event)
    (ht : r.buf.type = EV_KEY) (hc : r.buf.code < 65536) :
    (r.buf.value = 1 → ev_read r = (r.buf.code, false) ∧
      statusOf (ev_read r).1 = Status.Pressed ∧ EV_GETCODE (ev_read r).1 = r.buf.code) ∧
    (r.buf.value = 2 → ev_read r = (r.buf.code ||| EV_HOLD, false) ∧
      statusOf (ev_read r).1 = Status.Held ∧ EV_GETCODE (ev_read r).1 = r.buf.code) ∧
    (r.buf.value = 0 → ev_read r = (r.buf.code ||| EV_UP, false) ∧
      statusOf (ev_read r).1 = Status.Released ∧ EV_GETCODE (ev_read r).1 = r.buf.code) := by
  have hn : ¬ r.retval < 1 := by rw [hr]; decide
  refine ⟨fun hv => ?_, fun hv => ?_, fun hv => ?_⟩
  · have he := ev_read_pressed hn ht hv
    have he1 : (ev_read r).1 = r.buf.code := by rw [he]
    exact ⟨he, by rw [he1]; exact statusOf_pressed hc, by rw [he1]; exact EV_GETCODE_of_lt hc⟩
  · have he := ev_read_held hn ht hv
    have he1 : (ev_read r).1 = r.buf.code ||| EV_HOLD := by rw [he]
    exact ⟨he, by rw [he1]; exact statusOf_held hc, by rw [he1]; exact EV_GETCODE_hold hc⟩
  · have he := ev_read_released hn ht (by rw [hv]; decide) (by rw [hv]; decide)
    have he1 : (ev_read r).1 = r.buf.code ||| EV_UP := by rw [he]
    exact ⟨he, by rw [he1]; exact statusOf_released hc, by rw [he1]; exact EV_GETCODE_up hc⟩

/-- Witness for C2 at the record (type `EV_KEY`, code 30, value 1). -/
theorem ev_read_key_values_witness :
    ev_read ⟨24, 0, ⟨EV_KEY, 30, 1⟩⟩ = (30, false) ∧
    statusOf (ev_read ⟨24, 0, ⟨EV_KEY, 30, 1⟩⟩).1 = Status.Pressed ∧
    EV_GETCODE (ev_read ⟨24, 0, ⟨EV_KEY, 30, 1⟩⟩).1 = 30 :=
  (ev_read_key_values ⟨24, 0, ⟨EV_KEY, 30, 1⟩⟩ (by decide) (by decide) (by decide)).1 (by decide)

/-- Counterexample to claim C3: the key-event record (code 224, value 3) does
    not decode to `WouldBlock`; it decodes to `Released(224)` and does trigger
    the decrease-backlight dispatch action. -/
theorem ev_read_unknown_value_counterexample :
    statusOf (ev_read ⟨24, 0, ⟨EV_KEY, 224, 3⟩⟩).1 ≠ Status.WouldBlock ∧
    statusOf (ev_read ⟨24, 0, ⟨EV_KEY, 224, 3⟩⟩).1 = Status.Released ∧
    dispatch (ev_read ⟨24, 0, ⟨EV_KEY, 224, 3⟩⟩).1 = ["setbacklight %-10"] := by
  decide

/-- Claim C3 as amended: a successfully read key-event record whose value is
    neither 1 nor 2 (so also 3 or any negative value) decodes to `Released`
    with the record's code — the `else` branch of `ev_read` treats every such
    value as a release, so it can trigger a dispatch action. -/
theorem ev_read_unknown_value_released (r : ReadResult)
    (hr : r.retval = sizeof_input_event) (ht : r.buf.type = EV_KEY)
    (hc : r.buf.code < 65536) (h1 : r.buf.value ≠ 1) (h2 : r.buf.value ≠ 2) :
    ev_read r = (r.buf.code ||| EV_UP, false) ∧
    statusOf (ev_read r).1 = Status.Released ∧
    EV_GETCODE (ev_read r).1 = r.buf.code := by
  have hn : ¬ r.retval < 1 := by rw [hr]; decide
  have he := ev_read_released hn ht h1 h2
  have he1 : (ev_read r).1 = r.buf.code ||| EV_UP := by rw [he]
  exact ⟨he, by rw [he1]; exact statusOf_released hc, by rw [he1]; exact EV_GETCODE_up hc⟩

/-- Witness for the amended C3 at the record (type `EV_KEY`, code 7, value 5). -/
theorem ev_read_unknown_value_released_witness :
    ev_read ⟨24, 0, ⟨EV_KEY, 7, 5⟩⟩ = (7 ||| EV_UP, false) ∧
    statusOf (ev_read ⟨24, 0, ⟨EV_KEY, 7, 5⟩⟩).1 = Status.Released ∧
    EV_GETCODE (ev_read ⟨24, 0, ⟨EV_KEY, 7, 5⟩⟩).1 = 7 :=
  ev_read_unknown_value_released ⟨24, 0, ⟨EV_KEY, 7, 5⟩⟩
    (by decide) (by decide) (by decide) (by decide) (by decide)

/-- Counterexample to claim C4: a read of 5 bytes — fewer than the 24-byte
    record — with `errno` 0 (not interrupted / would-block / try-again) does
    not make `ev_read` return `Fatal` or close the handle; the buffer is
    interpreted as a record (here as `Pressed(42)`), and the result depends on
    the partial buffer bytes. -/
theorem ev_read_short_read_counterexample :
    (5 : Int) < sizeof_input_event ∧
    ¬ ((0 : Nat) = EINTR ∨ (0 : Nat) = EAGAIN ∨ (0 : Nat) = EWOULDBLOCK) ∧
    ev_read ⟨5, 0, ⟨EV_KEY, 42, 1⟩⟩ = (42, false) ∧
    statusOf (ev_read ⟨5, 0, ⟨EV_KEY, 42, 1⟩⟩).1 = Status.Pressed ∧
    ev_read ⟨5, 0, ⟨EV_KEY, 99, 1⟩⟩ ≠ ev_read ⟨5, 0, ⟨EV_KEY, 42, 1⟩⟩ := by
  decide

/-- Claim C4 as amended: for every read that yields fewer than one byte (an
    error return, or zero bytes), `ev_read` returns `WouldBlock` when `errno`
    is `EINTR`/`EAGAIN`/`EWOULDBLOCK`, otherwise closes the handle and returns
    `Fatal`; in neither case does it read the buffer — the result is the same
    for every buffer content. -/
theorem ev_read_failed_read (r : ReadResult) (hn : r.retval < 1) :
    ((r.errno = EINTR ∨ r.errno = EAGAIN ∨ r.errno = EWOULDBLOCK) →
      ev_read r = (EV_EBLOCK ||| EV_ERROR, false) ∧
      statusOf (ev_read r).1 = Status.WouldBlock) ∧
    (¬ (r.errno = EINTR ∨ r.errno = EAGAIN ∨ r.errno = EWOULDBLOCK) →
      ev_read r = (EV_EFILE ||| EV_ERROR, true) ∧
      statusOf (ev_read r).1 = Status.Fatal) ∧
    (∀ b : input_event, ev_read ⟨r.retval, r.errno, b⟩ = ev_read r) := by
  refine ⟨fun he => ?_, fun he => ?_, fun b => ?_⟩
  · have h := ev_read_block hn he
    exact ⟨h, by rw [h]; exact statusOf_eblock⟩
  · have h := ev_read_fatal hn he
    exact ⟨h, by rw [h]; exact statusOf_efile⟩
  · simp [ev_read, hn]

/-- Witness for the amended C4 at a read returning -1 with `errno = EINTR`. -/
theorem ev_read_failed_read_witness :
    ev_read ⟨-1, 4, ⟨0, 0, 0⟩⟩ = (EV_EBLOCK ||| EV_ERROR, false) ∧
    statusOf (ev_read ⟨-1, 4, ⟨0, 0, 0⟩⟩).1 = Status.WouldBlock :=
  (ev_read_failed_read ⟨-1, 4, ⟨0, 0, 0⟩⟩ (by decide)).1 (by decide)

/-- Claim C5: a successfully read record whose class is not `EV_KEY` decodes
    to `WouldBlock`, the loop stays `Running`, and no command is invoked. -/
theorem ev_read_non_key (r : ReadResult) (hr : r.retval = sizeof_input_event)
    (ht : r.buf.type ≠ EV_KEY) :
    ev_read r = (EV_EBLOCK ||| EV_ERROR, false) ∧
    statusOf (ev_read r).1 = Status.WouldBlock ∧
    loopStep r = ([], LoopState.Running) := by
  have hn : ¬ r.retval < 1 := by rw [hr]; decide
  have he := ev_read_nonkey hn ht
  refine ⟨he, by rw [he]; exact statusOf_eblock, ?_⟩
  simp only [loopStep, he]
  decide

/-- Witness for C5 at a sync record (type 0, code 0, value 0). -/
theorem ev_read_non_key_witness :
    ev_read ⟨24, 0, ⟨0, 0, 0⟩⟩ = (EV_EBLOCK ||| EV_ERROR, false) ∧
    statusOf (ev_read ⟨24, 0, ⟨0, 0, 0⟩⟩).1 = Status.WouldBlock ∧
    loopStep ⟨24, 0, ⟨0, 0, 0⟩⟩ = ([], LoopState.Running) :=
  ev_read_non_key ⟨24, 0, ⟨0, 0, 0⟩⟩ (by decide) (by decide)

/-- Claim C1: among decoded events, `Released(224)` invokes exactly the one
    decrease-backlight command, `Released(225)` exactly the one
    increase-backlight command, `Pressed`/`Held` events invoke nothing, and
    any other code invokes nothing. -/
theorem dispatch_table_correct (r : ReadResult) (hc : r.buf.code < 65536) :
    (statusOf (ev_read r).1 = Status.Released → EV_GETCODE (ev_read r).1 = 224 →
      dispatch (ev_read r).1 = ["setbacklight %-10"]) ∧
    (statusOf (ev_read r).1 = Status.Released → EV_GETCODE (ev_read r).1 = 225 →
      dispatch (ev_read r).1 = ["setbacklight %+10"]) ∧
    ((statusOf (ev_read r).1 = Status.Pressed ∨ statusOf (ev_read r).1 = Status.Held) →
      dispatch (ev_read r).1 = []) ∧
    (EV_GETCODE (ev_read r).1 ≠ 224 → EV_GETCODE (ev_read r).1 ≠ 225 →
      dispatch (ev_read r).1 = []) := by
  rcases ev_read_cases r with he | he | he | he | he
  · have he1 : (ev_read r).1 = EV_EBLOCK ||| EV_ERROR := by rw [he]
    rw [he1]; decide
  · have he1 : (ev_read r).1 = EV_EFILE ||| EV_ERROR := by rw [he]
    rw [he1]; decide
  · have he1 : (ev_read r).1 = r.buf.code := by rw [he]
    rw [he1, statusOf_pressed hc]
    have hd : dispatch r.buf.code = [] := dispatch_no_up (hasflag_up_of_lt hc)
    exact ⟨fun h => absurd h (by decide), fun h => absurd h (by decide),
      fun _ => hd, fun _ _ => hd⟩
  · have he1 : (ev_read r).1 = r.buf.code ||| EV_HOLD := by rw [he]
    rw [he1, statusOf_held hc]
    have hd : dispatch (r.buf.code ||| EV_HOLD) = [] :=
      dispatch_no_up (hasflag_up_of_hold hc)
    exact ⟨fun h => absurd h (by decide), fun h => absurd h (by decide),
      fun _ => hd, fun _ _ => hd⟩
  · have he1 : (ev_read r).1 = r.buf.code ||| EV_UP := by rw [he]
    rw [he1, statusOf_released hc]
    have hup : EV_HASFLAG (r.buf.code ||| EV_UP) EV_UP ≠ 0 := by
      rw [hasflag_up_self]; exact EV_UP_ne
    refine ⟨fun _ h224 => dispatch_up_224 h224 hup,
      fun _ h225 => dispatch_up_225 h225 hup, fun h => ?_,
      fun h1 h2 => dispatch_other h1 h2⟩
    rcases h with h | h
    · exact absurd h (by decide)
    · exact absurd h (by decide)

/-- Witness for C1 at the record (type `EV_KEY`, code 224, value 0), a
    release of key 224. -/
theorem dispatch_table_correct_witness :
    (⟨24, 0, ⟨EV_KEY, 224, 0⟩⟩ : ReadResult).buf.code < 65536 ∧
    dispatch (ev_read ⟨24, 0, ⟨EV_KEY, 224, 0⟩⟩).1 = ["setbacklight %-10"] :=
  ⟨by decide,
    (dispatch_table_correct ⟨24, 0, ⟨EV_KEY, 224, 0⟩⟩ (by decide)).1 (by decide) (by decide)⟩

/-- Claim C6: one loop iteration leaves `Running` exactly when the decoded
    value is `Fatal`; `WouldBlock` keeps running and invokes nothing; decoded
    key events evaluate the dispatch table and keep running. -/
theorem loop_step_states (r : ReadResult) (hc : r.buf.code < 65536) :
    ((loopStep r).2 = LoopState.Terminated ↔ statusOf (ev_read r).1 = Status.Fatal) ∧
    (statusOf (ev_read r).1 = Status.WouldBlock → loopStep r = ([], LoopState.Running)) ∧
    ((statusOf (ev_read r).1 = Status.Pressed ∨ statusOf (ev_read r).1 = Status.Held ∨
      statusOf (ev_read r).1 = Status.Released) →
      loopStep r = (dispatch (ev_read r).1, LoopState.Running)) := by
  rcases ev_read_cases r with he | he | he | he | he
  · have he1 : (ev_read r).1 = EV_EBLOCK ||| EV_ERROR := by rw [he]
    have hstep : loopStep r = ([], LoopState.Running) := by
      simp only [loopStep, he]; decide
    rw [he1, hstep]; decide
  · have he1 : (ev_read r).1 = EV_EFILE ||| EV_ERROR := by rw [he]
    have hstep : loopStep r = ([], LoopState.Terminated) := by
      simp only [loopStep, he]; decide
    rw [he1, hstep]; decide
  · have he1 : (ev_read r).1 = r.buf.code := by rw [he]
    have hstep : loopStep r = (dispatch r.buf.code, LoopState.Running) := by
      simp only [loopStep, he]
      simp [EV_FAIL_of_lt hc]
    rw [he1, hstep, statusOf_pressed hc]
    simp
  · have he1 : (ev_read r).1 = r.buf.code ||| EV_HOLD := by rw [he]
    have hstep : loopStep r = (dispatch (r.buf.code ||| EV_HOLD), LoopState.Running) := by
      simp only [loopStep, he]
      simp [EV_FAIL_hold hc]
    rw [he1, hstep, statusOf_held hc]
    simp
  · have he1 : (ev_read r).1 = r.buf.code ||| EV_UP := by rw [he]
    have hstep : loopStep r = (dispatch (r.buf.code ||| EV_UP), LoopState.Running) := by
      simp only [loopStep, he]
      simp [EV_FAIL_up hc]
    rw [he1, hstep, statusOf_released hc]
    simp

/-- Witness for C6 at a fatal read (return -1, `errno = EBADF`). -/
theorem loop_step_states_witness :
    ((loopStep ⟨-1, 9, ⟨0, 0, 0⟩⟩).2 = LoopState.Terminated ↔
      statusOf (ev_read ⟨-1, 9, ⟨0, 0, 0⟩⟩).1 = Status.Fatal) :=
  (loop_step_states ⟨-1, 9, ⟨0, 0, 0⟩⟩ (by decide)).1

/-- Claim C8: every value `ev_read` returns satisfies the encoding invariant:
    at most one of the `EV_ERROR`/`EV_UP`/`EV_HOLD` flags is set, a `Pressed`
    value carries no flags at all, the extracted code is 16-bit, the code
    field of a `WouldBlock`/`Fatal` value is exactly the corresponding error
    tag, and for decoded key events the code field is the record's code. -/
theorem ev_read_invariant (r : ReadResult) (hc : r.buf.code < 65536) :
    ((if EV_FAIL (ev_read r).1 ≠ 0 then 1 else 0) +
      (if EV_HASFLAG (ev_read r).1 EV_UP ≠ 0 then 1 else 0) +
      (if EV_HASFLAG (ev_read r).1 EV_HOLD ≠ 0 then 1 else 0) ≤ 1) ∧
    (statusOf (ev_read r).1 = Status.Pressed → (ev_read r).1 = EV_GETCODE (ev_read r).1) ∧
    EV_GETCODE (ev_read r).1 < 65536 ∧
    (statusOf (ev_read r).1 = Status.WouldBlock → EV_GETERROR (ev_read r).1 = EV_EBLOCK) ∧
    (statusOf (ev_read r).1 = Status.Fatal → EV_GETERROR (ev_read r).1 = EV_EFILE) ∧
    ((statusOf (ev_read r).1 = Status.Pressed ∨ statusOf (ev_read r).1 = Status.Held ∨
      statusOf (ev_read r).1 = Status.Released) →
      EV_GETCODE (ev_read r).1 = r.buf.code) := by
  rcases ev_read_cases r with he | he | he | he | he
  · have he1 : (ev_read r).1 = EV_EBLOCK ||| EV_ERROR := by rw [he]
    rw [he1]
    exact ⟨by decide, by decide, by decide, by decide, by decide,
      fun h => absurd h (by decide)⟩
  · have he1 : (ev_read r).1 = EV_EFILE ||| EV_ERROR := by rw [he]
    rw [he1]
    exact ⟨by decide, by decide, by decide, by decide, by decide,
      fun h => absurd h (by decide)⟩
  · have he1 : (ev_read r).1 = r.buf.code := by rw [he]
    rw [he1, statusOf_pressed hc]
    refine ⟨?_, fun _ => (EV_GETCODE_of_lt hc).symm, EV_GETCODE_lt _,
      fun h => absurd h (by decide), fun h => absurd h (by decide),
      fun _ => EV_GETCODE_of_lt hc⟩
    simp [EV_FAIL_of_lt hc, hasflag_up_of_lt hc, hasflag_hold_of_lt hc]
  · have he1 : (ev_read r).1 = r.buf.code ||| EV_HOLD := by rw [he]
    rw [he1, statusOf_held hc]
    refine ⟨?_, fun h => absurd h (by decide), EV_GETCODE_lt _,
      fun h => absurd h (by decide), fun h => absurd h (by decide),
      fun _ => EV_GETCODE_hold hc⟩
    simp [EV_FAIL_hold hc, hasflag_up_of_hold hc, hasflag_hold_self, EV_HOLD_ne]
  · have he1 : (ev_read r).1 = r.buf.code ||| EV_UP := by rw [he]
    rw [he1, statusOf_released hc]
    refine ⟨?_, fun h => absurd h (by decide), EV_GETCODE_lt _,
      fun h => absurd h (by decide), fun h => absurd h (by decide),
      fun _ => EV_GETCODE_up hc⟩
    simp [EV_FAIL_up hc, hasflag_up_self, hasflag_hold_of_up hc, EV_UP_ne]

/-- Witness for C8 at the record (type `EV_KEY`, code 10, value 2). -/
theorem ev_read_invariant_witness :
    EV_GETCODE (ev_read ⟨24, 0, ⟨EV_KEY, 10, 2⟩⟩).1 < 65536 :=
  (ev_read_invariant ⟨24, 0, ⟨EV_KEY, 10, 2⟩⟩ (by decide)).2.2.1

/-- Claim C9: `ev_read` closes the descriptor if and only if it returns a
    `Fatal` value; on `WouldBlock` and on decoded key events the handle stays
    open. -/
theorem ev_read_close_iff_fatal (r : ReadResult) (hc : r.buf.code < 65536) :
    (ev_read r).2 = true ↔ statusOf (ev_read r).1 = Status.Fatal := by
  rcases ev_read_cases r with he | he | he | he | he
  · rw [he]; decide
  · rw [he]; decide
  · have he1 : (ev_read r).1 = r.buf.code := by rw [he]
    have he2 : (ev_read r).2 = false := by rw [he]
    rw [he1, he2, statusOf_pressed hc]; decide
  · have he1 : (ev_read r).1 = r.buf.code ||| EV_HOLD := by rw [he]
    have he2 : (ev_read r).2 = false := by rw [he]
    rw [he1, he2, statusOf_held hc]; decide
  · have he1 : (ev_read r).1 = r.buf.code ||| EV_UP := by rw [he]
    have he2 : (ev_read r).2 = false := by rw [he]
    rw [he1, he2, statusOf_released hc]; decide

/-- Witness for C9 at a fatal read (return -1, `errno = EBADF`). -/
theorem ev_read_close_iff_fatal_witness :
    ((ev_read ⟨-1, 9, ⟨0, 0, 0⟩⟩).2 = true ↔
      statusOf (ev_read ⟨-1, 9, ⟨0, 0, 0⟩⟩).1 = Status.Fatal) :=
  ev_read_close_iff_fatal ⟨-1, 9, ⟨0, 0, 0⟩⟩ (by decide)

/-- A run of the loop that reaches `break` performs exactly one `close(fd)`
    inside `ev_read`: the one in the fatal branch of its last iteration. -/
lemma runLoop_terminated_closes (s : List ReadResult)
    (hw : ∀ r ∈ s, r.buf.code < 65536) (h : (runLoop s).terminated = true) :
    (runLoop s).closes = 1 := by
  induction s with
  | nil => simp [runLoop] at h
  | cons r rs ih =>
    have hcr : r.buf.code < 65536 := hw r (by simp)
    have hw2 : ∀ x ∈ rs, x.buf.code < 65536 := fun x hx => hw x (by simp [hx])
    rcases ev_read_cases r with he | he | he | he | he
    · rw [show runLoop (r :: rs) = ⟨(runLoop rs).commands, (runLoop rs).closes,
          (runLoop rs).terminated⟩ by
        simp [runLoop, he, EV_FAIL_eblock_ne, EV_GETERROR_eblock]] at h ⊢
      exact ih hw2 h
    · rw [show runLoop (r :: rs) = ⟨[], 1, true⟩ by
        simp [runLoop, he, EV_FAIL_efile_ne, EV_GETERROR_efile_ne]]
    · rw [show runLoop (r :: rs) = ⟨dispatch r.buf.code ++ (runLoop rs).commands,
          (runLoop rs).closes, (runLoop rs).terminated⟩ by
        simp [runLoop, he, EV_FAIL_of_lt hcr]] at h ⊢
      exact ih hw2 h
    · rw [show runLoop (r :: rs) = ⟨dispatch (r.buf.code ||| EV_HOLD) ++ (runLoop rs).commands,
          (runLoop rs).closes, (runLoop rs).terminated⟩ by
        simp [runLoop, he, EV_FAIL_hold hcr]] at h ⊢
      exact ih hw2 h
    · rw [show runLoop (r :: rs) = ⟨dispatch (r.buf.code ||| EV_UP) ++ (runLoop rs).commands,
          (runLoop rs).closes, (runLoop rs).terminated⟩ by
        simp [runLoop, he, EV_FAIL_up hcr]] at h ⊢
      exact ih hw2 h

/-- Claim C7: each startup failure prints its message to standard error and
    exits non-zero — a missing argument without attempting any device open, a
    failed open, a failed daemonize — and a run whose loop terminates on a
    fatal read after successful startup exits with status 0. -/
theorem main_exit_codes (cfg : MainConfig) :
    (cfg.argc < 2 →
      main cfg = some ⟨EXIT_FAILURE, ["usage: managerui /dev/input/eventX"], false, [], 0⟩ ∧
      EXIT_FAILURE ≠ 0) ∧
    (2 ≤ cfg.argc → cfg.openRet < 0 →
      main cfg = some ⟨EXIT_FAILURE, ["Cannot open event file"], true, [], 0⟩) ∧
    (2 ≤ cfg.argc → 0 ≤ cfg.openRet → cfg.daemonRet ≠ 0 →
      main cfg = some ⟨EXIT_FAILURE, ["Cannot fork into background"], true, [], 0⟩) ∧
    (2 ≤ cfg.argc → 0 ≤ cfg.openRet → cfg.daemonRet = 0 →
      (runLoop cfg.script).terminated = true →
      main cfg = some ⟨EXIT_SUCCESS, [], true, (runLoop cfg.script).commands,
        (runLoop cfg.script).closes + 1⟩) := by
  refine ⟨fun ha => ⟨by simp [main, ha], by decide⟩, fun ha ho => ?_, fun ha ho hd => ?_,
    fun ha ho hd ht => ?_⟩
  · have hna : ¬ cfg.argc < 2 := by omega
    simp [main, hna, ev_open, ho]
  · have hna : ¬ cfg.argc < 2 := by omega
    have hno : ¬ ev_open cfg.openRet < 0 := by simp only [ev_open]; omega
    simp [main, hna, hno, hd]
  · have hna : ¬ cfg.argc < 2 := by omega
    have hno : ¬ ev_open cfg.openRet < 0 := by simp only [ev_open]; omega
    simp [main, hna, hno, hd, ht]

/-- Witness for C7: the four branches at concrete configurations (argc 1; a
    failed open; a failed daemonize; a fatal read after successful startup). -/
theorem main_exit_codes_witness :
    main ⟨1, 0, 0, []⟩ =
      some ⟨EXIT_FAILURE, ["usage: managerui /dev/input/eventX"], false, [], 0⟩ ∧
    main ⟨2, -1, 0, []⟩ = some ⟨EXIT_FAILURE, ["Cannot open event file"], true, [], 0⟩ ∧
    main ⟨2, 3, -1, []⟩ = some ⟨EXIT_FAILURE, ["Cannot fork into background"], true, [], 0⟩ ∧
    main ⟨2, 3, 0, [⟨-1, 9, ⟨0, 0, 0⟩⟩]⟩ = some ⟨EXIT_SUCCESS, [], true,
      (runLoop [⟨-1, 9, ⟨0, 0, 0⟩⟩]).commands, (runLoop [⟨-1, 9, ⟨0, 0, 0⟩⟩]).closes + 1⟩ :=
  ⟨((main_exit_codes ⟨1, 0, 0, []⟩).1 (by decide)).1,
    (main_exit_codes ⟨2, -1, 0, []⟩).2.1 (by decide) (by decide),
    (main_exit_codes ⟨2, 3, -1, []⟩).2.2.1 (by decide) (by decide) (by decide),
    (main_exit_codes ⟨2, 3, 0, [⟨-1, 9, ⟨0, 0, 0⟩⟩]⟩).2.2.2
      (by decide) (by decide) (by decide) (by decide)⟩

/-- Claim C10: when the loop terminates after successful startup, the
    descriptor was already closed inside `ev_read` (exactly one in-loop
    close), and `main` still calls `ev_close` on the same descriptor, for a
    total of two `close` calls on one handle — the final close always operates
    on an already-released descriptor. -/
theorem double_close_on_fatal (cfg : MainConfig)
    (hw : ∀ r ∈ cfg.script, r.buf.code < 65536)
    (ha : 2 ≤ cfg.argc) (ho : 0 ≤ cfg.openRet) (hd : cfg.daemonRet = 0)
    (ht : (runLoop cfg.script).terminated = true) :
    (runLoop cfg.script).closes = 1 ∧
    main cfg = some ⟨EXIT_SUCCESS, [], true, (runLoop cfg.script).commands, 2⟩ := by
  have h1 := runLoop_terminated_closes cfg.script hw ht
  refine ⟨h1, ?_⟩
  have hna : ¬ cfg.argc < 2 := by omega
  have hno : ¬ ev_open cfg.openRet < 0 := by simp only [ev_open]; omega
  simp [main, hna, hno, hd, ht, h1]

/-- Witness for C10 at a one-record script whose read fails fatally. -/
theorem double_close_on_fatal_witness :
    (runLoop [⟨-1, 9, ⟨0, 0, 0⟩⟩]).closes = 1 ∧
    main ⟨2, 3, 0, [⟨-1, 9, ⟨0, 0, 0⟩⟩]⟩ = some ⟨EXIT_SUCCESS, [], true,
      (runLoop [⟨-1, 9, ⟨0, 0, 0⟩⟩]).commands, 2⟩ :=
  double_close_on_fatal ⟨2, 3, 0, [⟨-1, 9, ⟨0, 0, 0⟩⟩]⟩
    (by decide) (by decide) (by decide) (by decide) (by decide)

end Managerui
